import Mathlib

/-!
Verification of the SUNDAE image-analysis client (`src/src/core/gemini_client.py`)
against its natural-language specification.

The embedding models the `GeminiClient` class: byte strings are `List Nat`,
the filesystem is an association list from path to contents, a readable
stream is a content buffer with a cursor, and the remote Gemini service is
an opaque oracle from requests to either a text response or an error
message.  Every exception escaping `analyze_image_with_prompt` is the
blanket `RuntimeError` raised at the end of the method; the embedding keeps
the caught inner exception (the `Cause`) as the classifier, since the
wrapped message preserves it verbatim.  The spec taxonomy maps onto those
causes: `ImageReadError` is a wrapped file-open failure,
`UnsupportedInputError` a wrapped attribute error from calling `.read()` on
an unrecognized input, and `AnalysisError` a wrapped remote-dispatch
failure.
-/

namespace GeminiClient

/-- Byte strings, as lists of byte values. -/
abbrev Bytes := List Nat

/-- The filesystem visible to `open(image_path, "rb")`: an association list
from path to file contents; a missing key is a file that does not exist. -/
abbrev FS := List (String × Bytes)

/-- A readable stream (the Streamlit uploaded-file handle): a content
buffer plus a read cursor. -/
structure ByteStream where
  content : Bytes
  pos : Nat
deriving DecidableEq, Repr

/-- `f.read()`: everything from the cursor to the end. -/
def ByteStream.readAll (s : ByteStream) : Bytes :=
  s.content.drop s.pos

/-- `f.seek(n)`: move the cursor. -/
def ByteStream.seek (s : ByteStream) (n : Nat) : ByteStream :=
  { s with pos := n }

/-- The `image_path` argument of `analyze_image_with_prompt`, a closed
variant over the runtime type tests the method performs: `str`/`Path`,
`bytes`, an object with `.read()`/`.seek()` (uploaded file), or anything
else (e.g. an integer), which has no `.read` attribute. -/
inductive ImageInput where
  | path (p : String)
  | bytes (b : Bytes)
  | stream (s : ByteStream)
  | other
deriving DecidableEq, Repr

/-- One part of the outbound request, mirroring `types.Part.from_bytes`
and `types.Part.from_text`. -/
inductive GenaiPart where
  | byteData (data : Bytes) (mimeType : String)
  | text (t : String)
deriving DecidableEq, Repr

/-- The assembled `generate_content` call: model id plus the ordered parts
of the single `types.Content`. -/
structure Request where
  model : String
  parts : List GenaiPart
deriving DecidableEq, Repr

/-- The remote Gemini service, as an oracle: a request either yields the
response text (`response.text`) or fails with an error message. -/
abbrev Remote := Request → Except String String

/-- The inner exception caught by the blanket handler at the end of
`analyze_image_with_prompt` (lines 101-104), which re-raises it wrapped in
a `RuntimeError` whose message embeds the cause verbatim. -/
inductive Cause where
  | notInitialized
  | fileNotFound (p : String)
  | unboundLocal (v : String)
  | attributeError (a : String)
  | remote (msg : String)
deriving DecidableEq, Repr

/-- The string form of the inner exception, as interpolated into
`error_msg`. -/
def Cause.str : Cause → String
  | .notInitialized => "Gemini client not initialized"
  | .fileNotFound p => "No such file or directory: " ++ p
  | .unboundLocal v => "local variable " ++ v ++ " referenced before assignment"
  | .attributeError a => "object has no attribute " ++ a
  | .remote msg => msg

/-- The message of the `RuntimeError` actually raised out of
`analyze_image_with_prompt`: `f"Error analyzing image: {str(e)}"`. -/
def raisedMessage (c : Cause) : String :=
  "Error analyzing image: " ++ c.str

/-- Mutable state of a `GeminiClient` instance: `self.api_key`,
`self.model`, and `self.client` (`none` when not initialized). -/
structure ClientState where
  api_key : String
  model : String
  client : Option Unit
deriving DecidableEq, Repr

/-- The process environment slot mutated by `__init__`
(`os.environ["GOOGLE_API_KEY"] = api_key`). -/
structure Env where
  google_api_key : Option String
deriving DecidableEq, Repr

/-- The default for the `model` parameter of `__init__`. -/
def DEFAULT_MODEL : String := "gemini-2.5-flash"

/-- Errors surfaced by construction. -/
inductive InitError where
  | configurationError
deriving DecidableEq, Repr

/-- Modelled from the spec: the external `google.genai.Client` constructor
(not part of this repository) fails when the credential is empty/missing;
`_initialize_client` re-raises that failure. -/
def genaiClientConstruct (api_key : String) : Except InitError Unit :=
  if api_key = "" then .error .configurationError else .ok ()

/-- `GeminiClient.__init__` (lines 24-53): store the fields, write the
credential into the process environment, then initialize the remote
session; a constructor failure propagates, leaving no client value. -/
def init (api_key : String) (model : String) (_env : Env) :
    Except InitError ClientState × Env :=
  let env1 : Env := { google_api_key := some api_key }
  match genaiClientConstruct api_key with
  | .ok () =>
      (.ok { api_key := api_key, model := model, client := some () }, env1)
  | .error e => (.error e, env1)

/-- The fixed allow-list returned by `get_supported_models` (lines
119-125). -/
def get_supported_models : List String :=
  ["gemini-2.5-flash", "gemini-2.0-flash-exp", "gemini-1.5-flash"]

/-- `change_model` (lines 127-133): replace the active model if the new id
is in the allow-list, otherwise raise `ValueError` and leave the state
untouched. -/
def change_model (st : ClientState) (new_model : String) :
    Except String Unit × ClientState :=
  if new_model ∈ get_supported_models then
    (.ok (), { st with model := new_model })
  else
    (.error ("Unsupported model: " ++ new_model), st)

/-- Input normalization (lines 70-81), first-match-wins on the runtime
type of `image_path`.  The `bytes` branch is the source's literal
`image_bytes = image_bytes` self-assignment, which references the local
before any assignment and so raises `UnboundLocalError`.  A stream input
is read from its current cursor to the end and then `seek(0)` resets the
cursor to the start.  Any other value has no `.read` attribute. -/
def normalize (fs : FS) (input : ImageInput) :
    Except Cause (Bytes × Option ByteStream) :=
  match input with
  | .path p =>
      match fs.lookup p with
      | some content => .ok (content, none)
      | none => .error (.fileNotFound p)
  | .bytes _ => .error (.unboundLocal "image_bytes")
  | .stream s => .ok (s.readAll, some (s.seek 0))
  | .other => .error (.attributeError "read")

/-- Everything observable about one `analyze_image_with_prompt` call: the
returned text or the cause wrapped into the raised `RuntimeError`, the
request handed to `generate_content` if dispatch was reached, and the
final state of the stream when the input was a stream. -/
structure Outcome where
  result : Except Cause String
  dispatched : Option Request
  streamAfter : Option ByteStream
deriving Repr

/-- The stream carried by an input, unchanged (for paths before any stream
effect happens). -/
def inputStream : ImageInput → Option ByteStream
  | .stream s => some s
  | _ => none

/-- Request assembly (lines 86-96): `image_part` from the normalized
bytes with the fixed MIME type `image/png`, `text_part` from the prompt,
combined in that order into one `types.Content` for the active model. -/
def mkRequest (model : String) (image_bytes : Bytes) (prompt : String) :
    Request :=
  { model := model
    parts := [GenaiPart.byteData image_bytes "image/png",
              GenaiPart.text prompt] }

/-- `analyze_image_with_prompt` (lines 55-104): check initialization,
normalize the input, assemble the two-part request (image part first with
fixed MIME type `image/png`, text part second), dispatch, and return
`response.text` verbatim; any exception in the body is caught and
re-raised as a `RuntimeError` carrying the cause. -/
def analyze_image_with_prompt (st : ClientState) (fs : FS) (remote : Remote)
    (input : ImageInput) (prompt : String) : Outcome :=
  match st.client with
  | none =>
      { result := .error .notInitialized
        dispatched := none
        streamAfter := inputStream input }
  | some _ =>
      match normalize fs input with
      | .error c =>
          { result := .error c
            dispatched := none
            streamAfter := inputStream input }
      | .ok (image_bytes, s1) =>
          match remote (mkRequest st.model image_bytes prompt) with
          | .ok t =>
              { result := .ok t
                dispatched := some (mkRequest st.model image_bytes prompt)
                streamAfter := s1 }
          | .error m =>
              { result := .error (.remote m)
                dispatched := some (mkRequest st.model image_bytes prompt)
                streamAfter := s1 }

/-- The fixed instruction used by `analyze_image_simple` (line 116). -/
def default_prompt : String :=
  "Please analyze this image and describe what you see in detail."

/-- `analyze_image_simple` (lines 106-117): delegate to
`analyze_image_with_prompt` with the fixed default instruction. -/
def analyze_image_simple (st : ClientState) (fs : FS) (remote : Remote)
    (input : ImageInput) : Outcome :=
  analyze_image_with_prompt st fs remote input default_prompt

/-- Spec taxonomy: `ImageReadError` is a wrapped local file-open
failure. -/
def Cause.isImageReadError : Cause → Bool
  | .fileNotFound _ => true
  | _ => false

/-- Spec taxonomy: `UnsupportedInputError` is a wrapped attribute error
from probing an unrecognized input kind. -/
def Cause.isUnsupportedInputError : Cause → Bool
  | .attributeError _ => true
  | _ => false

/-- Spec taxonomy: `AnalysisError` is a wrapped remote dispatch/response
failure. -/
def Cause.isAnalysisError : Cause → Bool
  | .remote _ => true
  | _ => false

/-- The image bytes of the leading part of a request, when the request
starts with a binary part. -/
def Request.imageBytes (r : Request) : Option Bytes :=
  match r.parts with
  | GenaiPart.byteData d _ :: _ => some d
  | _ => none

/-- Helper: the environment after `__init__` always holds the supplied
credential, whether or not session initialization succeeded. -/
theorem init_env (k m : String) (e : Env) :
    (init k m e).2 = { google_api_key := some k } := by
  unfold init
  cases genaiClientConstruct k with
  | ok u => cases u; rfl
  | error err => rfl

/-- Helper: on an initialized client, a successfully normalized input is
dispatched as the two-part request, and the outcome follows the remote
oracle. -/
theorem analyze_of_normalize_ok (key model prompt : String) (fs : FS)
    (remote : Remote) (input : ImageInput) (b : Bytes)
    (s1 : Option ByteStream) (hn : normalize fs input = .ok (b, s1)) :
    analyze_image_with_prompt ⟨key, model, some ()⟩ fs remote input prompt =
      match remote (mkRequest model b prompt) with
      | .ok t =>
          { result := .ok t
            dispatched := some (mkRequest model b prompt)
            streamAfter := s1 }
      | .error m =>
          { result := .error (.remote m)
            dispatched := some (mkRequest model b prompt)
            streamAfter := s1 } := by
  unfold analyze_image_with_prompt
  rw [hn]

/-- Helper: on an initialized client, a normalization failure surfaces as
the wrapped cause and nothing is dispatched. -/
theorem analyze_of_normalize_error (key model prompt : String) (fs : FS)
    (remote : Remote) (input : ImageInput) (c : Cause)
    (hn : normalize fs input = .error c) :
    analyze_image_with_prompt ⟨key, model, some ()⟩ fs remote input prompt =
      { result := .error c
        dispatched := none
        streamAfter := inputStream input } := by
  unfold analyze_image_with_prompt
  rw [hn]

/-- C1: the claim says all three input kinds carrying the same non-empty
bytes B yield an identical outbound payload, with a raw-bytes input used
as-is.  The code contradicts this: the `bytes` branch is the
self-assignment `image_bytes = image_bytes`, which raises
`UnboundLocalError` before any request is assembled, so a raw-bytes input
never dispatches at all — while the path and stream kinds carrying the
same bytes [1] both dispatch the identical payload.  This evaluates the
model at the failing input. -/
theorem c1_bytes_branch_never_dispatches :
    (analyze_image_with_prompt ⟨"k", DEFAULT_MODEL, some ()⟩
        [("img.png", [1])] (fun _ => .ok "text") (.bytes [1]) "p").result
      = .error (.unboundLocal "image_bytes") ∧
    (analyze_image_with_prompt ⟨"k", DEFAULT_MODEL, some ()⟩
        [("img.png", [1])] (fun _ => .ok "text") (.bytes [1]) "p").dispatched
      = none ∧
    (analyze_image_with_prompt ⟨"k", DEFAULT_MODEL, some ()⟩
        [("img.png", [1])] (fun _ => .ok "text") (.path "img.png") "p").dispatched
      = some { model := DEFAULT_MODEL
               parts := [GenaiPart.byteData [1] "image/png",
                         GenaiPart.text "p"] } ∧
    (analyze_image_with_prompt ⟨"k", DEFAULT_MODEL, some ()⟩
        [("img.png", [1])] (fun _ => .ok "text")
        (.stream ⟨[1], 0⟩) "p").dispatched
      = some { model := DEFAULT_MODEL
               parts := [GenaiPart.byteData [1] "image/png",
                         GenaiPart.text "p"] } :=
  ⟨rfl, rfl, rfl, rfl⟩

/-- C2 counterexample: a stream positioned at offset 1 over content [1,2]
is left at position 0 after `analyze`, not at its pre-call position 1:
the code executes `image_path.seek(0)`, which rewinds to the start rather
than restoring the prior cursor. -/
theorem c2_position_not_restored :
    (analyze_image_with_prompt ⟨"k", DEFAULT_MODEL, some ()⟩ []
        (fun _ => .ok "text") (.stream ⟨[1, 2], 1⟩) "p").streamAfter
      = some { content := [1, 2], pos := 0 } ∧
    ¬ (analyze_image_with_prompt ⟨"k", DEFAULT_MODEL, some ()⟩ []
        (fun _ => .ok "text") (.stream ⟨[1, 2], 1⟩) "p").streamAfter
      = some { content := [1, 2], pos := 1 } := by
  refine ⟨rfl, ?_⟩
  intro h
  have h2 : some (ByteStream.mk [1, 2] 0) = some (ByteStream.mk [1, 2] 1) := h
  simp at h2

/-- C2 amended: after `analyze` completes on a stream input against an
initialized client — whether the remote call succeeds or fails — the
stream is left with its content intact and its position reset to 0 (the
start), not restored to an arbitrary pre-call offset; in particular a
pre-call position of 0 is restored, and a subsequent full read from
offset 0 yields the full content again. -/
theorem c2_stream_reset_to_start (key model prompt : String) (fs : FS)
    (remote : Remote) (s : ByteStream) :
    (analyze_image_with_prompt ⟨key, model, some ()⟩ fs remote
        (.stream s) prompt).streamAfter
      = some { content := s.content, pos := 0 } ∧
    (ByteStream.mk s.content 0).readAll = s.content := by
  constructor
  · rw [analyze_of_normalize_ok key model prompt fs remote (.stream s)
      s.readAll (some (s.seek 0)) rfl]
    cases remote (mkRequest model s.readAll prompt) <;> rfl
  · simp [ByteStream.readAll]

/-- C3: an input of unrecognized kind (no `.read` attribute, e.g. an
integer) makes `analyze` raise the wrapped attribute error — the spec
taxonomy's `UnsupportedInputError` — and nothing is ever dispatched to
the remote service. -/
theorem c3_unsupported_input (key model prompt : String) (fs : FS)
    (remote : Remote) :
    (analyze_image_with_prompt ⟨key, model, some ()⟩ fs remote
        .other prompt).result
      = .error (.attributeError "read") ∧
    Cause.isUnsupportedInputError (.attributeError "read") = true ∧
    (analyze_image_with_prompt ⟨key, model, some ()⟩ fs remote
        .other prompt).dispatched = none := by
  rw [analyze_of_normalize_error key model prompt fs remote .other
    (.attributeError "read") rfl]
  exact ⟨rfl, rfl, rfl⟩

/-- C4: a path input whose file is absent raises the wrapped file-open
failure — the spec taxonomy's `ImageReadError`, which is not an
`AnalysisError` — without dispatching; a path input whose file is present
is dispatched with the full file contents as the image bytes. -/
theorem c4_path_read (key model p prompt : String) (fs : FS)
    (remote : Remote) :
    (fs.lookup p = none →
      (analyze_image_with_prompt ⟨key, model, some ()⟩ fs remote
          (.path p) prompt).result = .error (.fileNotFound p) ∧
      Cause.isImageReadError (.fileNotFound p) = true ∧
      Cause.isAnalysisError (.fileNotFound p) = false ∧
      (analyze_image_with_prompt ⟨key, model, some ()⟩ fs remote
          (.path p) prompt).dispatched = none) ∧
    (∀ B : Bytes, fs.lookup p = some B →
      ∃ req : Request,
        (analyze_image_with_prompt ⟨key, model, some ()⟩ fs remote
            (.path p) prompt).dispatched = some req ∧
        req.imageBytes = some B) := by
  constructor
  · intro hmiss
    rw [analyze_of_normalize_error key model prompt fs remote (.path p)
      (.fileNotFound p) (by simp [normalize, hmiss])]
    exact ⟨rfl, rfl, rfl, rfl⟩
  · intro B hhit
    rw [analyze_of_normalize_ok key model prompt fs remote (.path p)
      B none (by simp [normalize, hhit])]
    refine ⟨mkRequest model B prompt, ?_, rfl⟩
    cases remote (mkRequest model B prompt) <;> rfl

/-- Witness for C4 at a concrete filesystem: the missing path fails with
the wrapped file-open error, and the present path dispatches its
contents. -/
theorem c4_path_read_witness :
    (analyze_image_with_prompt ⟨"k", DEFAULT_MODEL, some ()⟩
        [("chart.png", [7])] (fun _ => .ok "t") (.path "missing.png")
        "describe").result = .error (.fileNotFound "missing.png") ∧
    ∃ req : Request,
      (analyze_image_with_prompt ⟨"k", DEFAULT_MODEL, some ()⟩
          [("chart.png", [7])] (fun _ => .ok "t") (.path "chart.png")
          "describe").dispatched = some req ∧
      req.imageBytes = some [7] :=
  ⟨((c4_path_read "k" DEFAULT_MODEL "missing.png" "describe"
      [("chart.png", [7])] (fun _ => .ok "t")).1 (by decide)).1,
   (c4_path_read "k" DEFAULT_MODEL "chart.png" "describe"
      [("chart.png", [7])] (fun _ => .ok "t")).2 [7] (by decide)⟩

/-- C5: constructing the client with an empty credential fails with
`ConfigurationError` — no client value, hence no remote session, is ever
produced.  The external session constructor is modelled from the spec as
rejecting an empty/missing credential. -/
theorem c5_empty_credential (model : String) (env : Env) :
    (init "" model env).1 = .error .configurationError ∧
    ∀ st : ClientState, (init "" model env).1 ≠ .ok st :=
  ⟨rfl, fun _ h => Except.noConfusion h⟩

/-- C6: the claim says an empty byte buffer is dispatched and rejected
remotely, surfacing as `AnalysisError`.  In the code the `bytes` branch
raises `UnboundLocalError` (the `image_bytes = image_bytes`
self-assignment) before any request exists, so the call does raise and
never returns — but the wrapped cause is a local fault, not a remote
`AnalysisError`, and nothing is ever dispatched. -/
theorem c6_empty_bytes (key model prompt : String) (fs : FS)
    (remote : Remote) :
    (analyze_image_with_prompt ⟨key, model, some ()⟩ fs remote
        (.bytes []) prompt).result = .error (.unboundLocal "image_bytes") ∧
    Cause.isAnalysisError (.unboundLocal "image_bytes") = false ∧
    (analyze_image_with_prompt ⟨key, model, some ()⟩ fs remote
        (.bytes []) prompt).dispatched = none ∧
    ∀ t : String,
      (analyze_image_with_prompt ⟨key, model, some ()⟩ fs remote
          (.bytes []) prompt).result ≠ .ok t := by
  rw [analyze_of_normalize_error key model prompt fs remote (.bytes [])
    (.unboundLocal "image_bytes") rfl]
  exact ⟨rfl, rfl, rfl, fun _ h => Except.noConfusion h⟩

/-- C7: every id in the allow-list is accepted by `change_model`, which
replaces the active model and nothing else; any other id raises
`ValueError` — the spec taxonomy's `UnsupportedModelError` — with the
state unchanged, and `get_supported_models` remains the fixed list with
the default model first. -/
theorem c7_model_management (st : ClientState) (m : String) :
    (m ∈ get_supported_models →
      (change_model st m).1 = .ok () ∧
      (change_model st m).2 = { st with model := m }) ∧
    (m ∉ get_supported_models →
      (change_model st m).1 = .error ("Unsupported model: " ++ m) ∧
      (change_model st m).2 = st) ∧
    get_supported_models =
      [DEFAULT_MODEL, "gemini-2.0-flash-exp", "gemini-1.5-flash"] ∧
    get_supported_models.head? = some DEFAULT_MODEL := by
  refine ⟨?_, ?_, rfl, rfl⟩
  · intro h
    simp [change_model, h]
  · intro h
    simp [change_model, h]

/-- Witness for C7: switching to a listed model updates the state;
switching to an unlisted id raises and leaves the state untouched. -/
theorem c7_model_management_witness :
    (change_model ⟨"k", DEFAULT_MODEL, some ()⟩ "gemini-1.5-flash").2
      = { api_key := "k", model := "gemini-1.5-flash", client := some () } ∧
    (change_model ⟨"k", DEFAULT_MODEL, some ()⟩ "not-a-real-model").1
      = .error ("Unsupported model: " ++ "not-a-real-model") ∧
    (change_model ⟨"k", DEFAULT_MODEL, some ()⟩ "not-a-real-model").2
      = ⟨"k", DEFAULT_MODEL, some ()⟩ :=
  ⟨((c7_model_management ⟨"k", DEFAULT_MODEL, some ()⟩
      "gemini-1.5-flash").1 (by decide)).2,
   ((c7_model_management ⟨"k", DEFAULT_MODEL, some ()⟩
      "not-a-real-model").2.1 (by decide)).1,
   ((c7_model_management ⟨"k", DEFAULT_MODEL, some ()⟩
      "not-a-real-model").2.1 (by decide)).2⟩

/-- C8: `analyze_image_simple` is exactly `analyze_image_with_prompt`
with the fixed default instruction — same outcome (result, dispatch,
stream effect) on every input and every remote behavior. -/
theorem c8_simple_is_default (st : ClientState) (fs : FS) (remote : Remote)
    (input : ImageInput) :
    analyze_image_simple st fs remote input
      = analyze_image_with_prompt st fs remote input default_prompt := rfl

/-- C9: whenever a call on an initialized client reaches dispatch, the
dispatched request consists of exactly two ordered parts — the image part
first, declared `image/png` regardless of the source format, and the
instruction text second — carries the active model id, and a successful
remote response text is returned verbatim (an empty string included). -/
theorem c9_request_shape (key model prompt : String) (fs : FS)
    (remote : Remote) (input : ImageInput) (req : Request)
    (h : (analyze_image_with_prompt ⟨key, model, some ()⟩ fs remote
        input prompt).dispatched = some req) :
    (∃ b : Bytes,
      req.parts = [GenaiPart.byteData b "image/png",
                   GenaiPart.text prompt]) ∧
    req.model = model ∧
    ∀ t : String, remote req = .ok t →
      (analyze_image_with_prompt ⟨key, model, some ()⟩ fs remote
          input prompt).result = .ok t := by
  cases hn : normalize fs input with
  | error c =>
      rw [analyze_of_normalize_error key model prompt fs remote input
        c hn] at h
      simp at h
  | ok bs =>
      obtain ⟨b, s1⟩ := bs
      rw [analyze_of_normalize_ok key model prompt fs remote input
        b s1 hn] at h
      rw [analyze_of_normalize_ok key model prompt fs remote input b s1 hn]
      cases hr : remote (mkRequest model b prompt) with
      | ok t0 =>
          rw [hr] at h
          simp at h
          subst h
          rw [hr]
          refine ⟨⟨b, rfl⟩, rfl, ?_⟩
          intro t ht
          injection ht with ht2
          subst ht2
          rfl
      | error msg =>
          rw [hr] at h
          simp at h
          subst h
          rw [hr]
          refine ⟨⟨b, rfl⟩, rfl, ?_⟩
          intro t ht
          exact Except.noConfusion ht

/-- Witness for C9: a stream input against a remote returning the empty
string dispatches and yields the empty string as a valid result. -/
theorem c9_request_shape_witness :
    (analyze_image_with_prompt ⟨"k", DEFAULT_MODEL, some ()⟩ []
        (fun _ => Except.ok "") (.stream ⟨[5], 0⟩) "Hello").result
      = Except.ok "" :=
  (c9_request_shape "k" DEFAULT_MODEL "Hello" [] (fun _ => Except.ok "")
    (.stream ⟨[5], 0⟩) (mkRequest DEFAULT_MODEL [5] "Hello") rfl).2.2 "" rfl

/-- C10: `__init__` writes the supplied credential into the process-wide
`GOOGLE_API_KEY` slot, so a later construction with a different
credential overwrites the ambient credential the earlier instance set. -/
theorem c10_env_overwrite (k1 k2 m1 m2 : String) (env0 : Env)
    (h : k1 ≠ k2) :
    ((init k1 m1 env0).2).google_api_key = some k1 ∧
    ((init k2 m2 (init k1 m1 env0).2).2).google_api_key = some k2 ∧
    ((init k2 m2 (init k1 m1 env0).2).2).google_api_key ≠ some k1 := by
  refine ⟨?_, ?_, ?_⟩
  · rw [init_env]
  · rw [init_env]
  · rw [init_env]
    intro hc
    exact h (Option.some.inj hc).symm

/-- Witness for C10 at two concrete distinct credentials. -/
theorem c10_env_overwrite_witness :
    ((init "k2" DEFAULT_MODEL
        (init "k1" DEFAULT_MODEL ⟨none⟩).2).2).google_api_key = some "k2" ∧
    ((init "k2" DEFAULT_MODEL
        (init "k1" DEFAULT_MODEL ⟨none⟩).2).2).google_api_key ≠ some "k1" :=
  ⟨(c10_env_overwrite "k1" "k2" DEFAULT_MODEL DEFAULT_MODEL ⟨none⟩
      (by decide)).2.1,
   (c10_env_overwrite "k1" "k2" DEFAULT_MODEL DEFAULT_MODEL ⟨none⟩
      (by decide)).2.2⟩

end GeminiClient
